import Mathlib

/-!
Verification of the safe SQL query subsystem in `sql_tool.py`
(MySQL MCP server).  The Python functions are shallowly embedded as
executable Lean definitions; each claim about the specification is
settled by a theorem over these definitions.

String-level helpers model the Python built-ins used by the source
(`str.strip`, `str.upper`, `str.lower`, `str.split`, the `in`
substring test) on the character-list representation of strings.
-/

/-- Models Python's default whitespace set used by `str.strip` and
`str.split` (ASCII part, which is all the source ever feeds them). -/
def isWs (c : Char) : Bool :=
  c = ' ' || c = '\t' || c = '\n' || c = '\r' || c = '\x0b' || c = '\x0c'

/-- Drop leading whitespace characters. -/
def dropWs : List Char → List Char
  | [] => []
  | c :: r => if isWs c then dropWs r else c :: r

/-- Models Python `str.strip()` on the character list: drop whitespace
from both ends. -/
def stripL (l : List Char) : List Char :=
  (dropWs ((dropWs l).reverse)).reverse

/-- Models Python `str.upper()` on one character (ASCII case map,
as the source only compares ASCII SQL keywords). -/
def pyUpperChar (c : Char) : Char :=
  if 97 ≤ c.toNat && c.toNat ≤ 122 then Char.ofNat (c.toNat - 32) else c

/-- Models Python `str.lower()` on one character (ASCII case map). -/
def pyLowerChar (c : Char) : Char :=
  if 65 ≤ c.toNat && c.toNat ≤ 90 then Char.ofNat (c.toNat + 32) else c

/-- Models Python `str.lower()`. -/
def pyLower (s : String) : String :=
  String.mk (s.data.map pyLowerChar)

/-- Models Python `str.upper()`. -/
def pyUpper (s : String) : String :=
  String.mk (s.data.map pyUpperChar)

/-- Accumulator-passing worker for whitespace splitting. -/
def splitWsAux : List Char → List Char → List (List Char)
  | cur, [] => if cur.isEmpty then [] else [cur.reverse]
  | cur, c :: rest =>
    if isWs c then
      if cur.isEmpty then splitWsAux [] rest
      else cur.reverse :: splitWsAux [] rest
    else splitWsAux (c :: cur) rest

/-- Models Python `str.split()` with no separator: split on runs of
whitespace, with no empty tokens. -/
def splitWs (l : List Char) : List (List Char) :=
  splitWsAux [] l

/-- Is `needle` a leading segment of `hay`? -/
def isPrefixL : List Char → List Char → Bool
  | [], _ => true
  | _ :: _, [] => false
  | a :: as, b :: bs => a = b && isPrefixL as bs

/-- Substring occurrence test on character lists. -/
def containsL : List Char → List Char → Bool
  | hay, needle =>
    match hay with
    | [] => needle.isEmpty
    | _ :: t => isPrefixL needle hay || containsL t needle

/-- Models the Python expression `needle in hay` on strings. -/
def pyContains (hay needle : String) : Bool :=
  containsL hay.data needle.data

/-! ## QueryGuard (sql_tool.py, execute_safe_query lines 60-94)

The source computes `query.strip().upper().split()[0]` and checks
membership in the read-only keyword list.  `classify` returns `none`
exactly when the Python indexing `[0]` would raise `IndexError`. -/

/-- Models `query.strip().upper().split()[0]` from `execute_safe_query`:
the first whitespace-delimited token of the stripped, upper-cased text,
or `none` when there is no token (Python raises `IndexError`). -/
def classify (query : String) : Option String :=
  ((splitWs ((stripL query.data).map pyUpperChar)).head?).map String.mk

/-- Models the membership test
`query_type not in ['SELECT', 'SHOW', 'DESCRIBE', 'EXPLAIN']`
(negated): the read-only whitelist of `execute_safe_query`. -/
def is_read_only (keyword : String) : Bool :=
  ["SELECT", "SHOW", "DESCRIBE", "EXPLAIN"].contains keyword

/-! ## Result values and the guarded executor -/

/-- Cell values as returned by the database driver and serialized by
the tool layer.  `vDate`/`vDatetime` model Python `datetime.date` /
`datetime.datetime` objects; the other constructors are JSON-native
types that `json.dumps` serializes directly. -/
inductive Value where
  | vNull
  | vBool (b : Bool)
  | vInt (n : Int)
  | vStr (s : String)
  | vDate (y m d : Nat)
  | vDatetime (y m d hh mi ss : Nat)
deriving DecidableEq

/-- One result row, as produced by the `DictCursor`: an ordered
column-name/value mapping. -/
def Row : Type := List (String × Value)

/-- Models the result dictionary built by `execute_safe_query`. -/
structure QueryResult where
  success : Bool
  error : Option String
  data : List (List (String × Value))
  row_count : Nat
deriving DecidableEq

/-- The error message of the policy branch in `execute_safe_query`. -/
def policyMsg : String :=
  "Only SELECT, SHOW, DESCRIBE, and EXPLAIN queries are allowed for security reasons"

/-- A database driver: given the SQL text, either the fetched rows or a
driver-level error message.  `execute_safe_query` is parametrized over
it so that "no database call" is expressible as independence from it. -/
def Driver : Type := String → Except String (List (List (String × Value)))

/-- Models `execute_safe_query` (sql_tool.py lines 60-94): extract the
leading token; if it is missing, the Python `split()[0]` raises
`IndexError`, which the surrounding `except` turns into an error
result; if it is not whitelisted, return the policy-violation result
without consulting the driver; otherwise execute and fetch. -/
def execute_safe_query (db : Driver) (query : String) : QueryResult :=
  match classify query with
  | none =>
    { success := false, error := some "list index out of range", data := [], row_count := 0 }
  | some query_type =>
    if is_read_only query_type then
      match db query with
      | .ok results =>
        { success := true, error := none, data := results, row_count := results.length }
      | .error e =>
        { success := false, error := some e, data := [], row_count := 0 }
    else
      { success := false, error := some policyMsg, data := [], row_count := 0 }

/-! ## Result serialization (execute_query, sql_tool.py lines 270-281)

`execute_query` wraps `execute_safe_query` and serializes the result
with `json.dumps(result, indent=2, default=str)`.  For the value types
in `Value`, `default=str` fires exactly on `vDate`/`vDatetime` (the
non-JSON-native ones) and applies Python `str()`, which for `date` and
`datetime` is their ISO-8601 `isoformat` rendering (`datetime` with a
space separator).  All JSON-native values serialize unchanged. -/

/-- The decimal digit character of `n mod 10`. -/
def digitChar (n : Nat) : Char :=
  match n % 10 with
  | 0 => '0' | 1 => '1' | 2 => '2' | 3 => '3' | 4 => '4'
  | 5 => '5' | 6 => '6' | 7 => '7' | 8 => '8' | _ => '9'

/-- Two-digit zero-padded rendering (field of an `isoformat` string). -/
def pad2L (n : Nat) : List Char :=
  [digitChar (n / 10), digitChar n]

/-- Four-digit zero-padded year rendering.  Python's `datetime.date`
restricts years to 1..9999, so four digits always suffice. -/
def pad4L (n : Nat) : List Char :=
  [digitChar (n / 1000), digitChar (n / 100), digitChar (n / 10), digitChar n]

/-- Character list of `str(datetime.date(y, m, d))`: `YYYY-MM-DD`. -/
def isoDateL (y m d : Nat) : List Char :=
  pad4L y ++ ['-'] ++ pad2L m ++ ['-'] ++ pad2L d

/-- Models `str(datetime.date(y, m, d))` (ISO-8601 date). -/
def isoDate (y m d : Nat) : String :=
  String.mk (isoDateL y m d)

/-- Models `str(datetime.datetime(...))`: the ISO-8601 rendering with
`sep=' '`, i.e. `YYYY-MM-DD HH:MM:SS`. -/
def pyStrDatetime (y m d hh mi ss : Nat) : String :=
  String.mk (isoDateL y m d ++ [' '] ++ pad2L hh ++ [':'] ++ pad2L mi ++ [':'] ++ pad2L ss)

/-- Recognizer for ISO-8601 date syntax `YYYY-MM-DD`. -/
def isIsoDateChars : List Char → Bool
  | [a, b, c, d, e, f, g, h, i, j] =>
    a.isDigit && b.isDigit && c.isDigit && d.isDigit && (e == '-') &&
    f.isDigit && g.isDigit && (h == '-') && i.isDigit && j.isDigit
  | _ => false

/-- Does the string have ISO-8601 date or datetime syntax (the
datetime form with the space separator of Python `isoformat(' ')`)? -/
def isIso8601 (s : String) : Bool :=
  match s.data with
  | [a, b, c, d, e, f, g, h, i, j] =>
    isIsoDateChars [a, b, c, d, e, f, g, h, i, j]
  | [a, b, c, d, e, f, g, h, i, j, sp, k, l, c1, m, n, c2, o, p] =>
    isIsoDateChars [a, b, c, d, e, f, g, h, i, j] && (sp == ' ') &&
    k.isDigit && l.isDigit && (c1 == ':') && m.isDigit && n.isDigit &&
    (c2 == ':') && o.isDigit && p.isDigit
  | _ => false

/-- Is the value a native Python date/datetime object? -/
def isDateLike : Value → Bool
  | .vDate _ _ _ => true
  | .vDatetime _ _ _ _ _ _ => true
  | _ => false

/-- Models the effect of `json.dumps(..., default=str)` on one cell
value: non-JSON-native date/datetime objects are rendered by `str()`;
every JSON-native value passes through unchanged. -/
def serializeValue : Value → Value
  | .vDate y m d => .vStr (isoDate y m d)
  | .vDatetime y m d hh mi ss => .vStr (pyStrDatetime y m d hh mi ss)
  | v => v

/-- Models `execute_query` (sql_tool.py lines 270-281): run
`execute_safe_query`, then serialize every cell value with
`json.dumps(..., default=str)`. -/
def execute_query (db : Driver) (sql_query : String) : QueryResult :=
  let r := execute_safe_query db sql_query
  { r with data := r.data.map (fun row => row.map (fun kv => (kv.1, serializeValue kv.2))) }

/-! ## QuerySynthesizer (generate_sql_query, sql_tool.py lines 97-149) -/

/-- One column of a table schema as built by `fetch_table_schema`. -/
structure Col where
  name : String
  type : String
  null : Bool
  key : String
  default : Option String
  extra : String
deriving DecidableEq

/-- A schema snapshot: table name to column list, in dict insertion
order (the iteration order of the Python `table_schemas` dict). -/
def Snapshot : Type := List (String × List Col)

/-- Models `table_name.lower() in user_request_lower`. -/
def tableMatch (lr : String) (name : String) : Bool :=
  pyContains lr (pyLower name)

/-- Models the `for table_name in table_schemas: if match: return`
loops of the count and all/select categories: first table (in snapshot
order) whose lowered name is a substring of the lowered request. -/
def findTableC (lr : String) : Snapshot → Option String
  | [] => none
  | (name, _) :: rest =>
    if tableMatch lr name then some name else findTableC lr rest

/-- Column filter of the aggregate categories: names of the columns
whose declared type contains one of the given type fragments. -/
def colsWithTypes (frags : List String) (cols : List Col) : List String :=
  (cols.filter (fun c => frags.any (fun t => pyContains (pyLower c.type) t))).map Col.name

/-- Numeric type fragments of the average category. -/
def numericFrags : List String := ["int", "decimal", "float", "double"]

/-- Type fragments of the max/min categories (numeric plus date/time). -/
def numericDateFrags : List String := ["int", "decimal", "float", "double", "date", "time"]

/-- Text type fragments of the group-by category. -/
def textFrags : List String := ["varchar", "char", "text", "enum"]

/-- Models the aggregate-category loops: walk the snapshot in order;
at the first table whose name matches, if its qualifying column list
is nonempty return the table and list head, otherwise keep walking. -/
def findAggTable (lr : String) (frags : List String) : Snapshot → Option (String × String)
  | [] => none
  | (name, cols) :: rest =>
    if tableMatch lr name then
      match colsWithTypes frags cols with
      | c :: _ => some (name, c)
      | [] => findAggTable lr frags rest
    else findAggTable lr frags rest

/-- The terminal placeholder comment of `generate_sql_query`. -/
def placeholder : String :=
  "-- Unable to generate query automatically. Please provide more specific requirements."

/-- Models `generate_sql_query` (sql_tool.py lines 97-149).  The source
is an `if`/`elif` chain on keyword substrings of the lowered request;
inside the branch taken, a loop over the snapshot either returns a
query or falls off the end of the function to the placeholder return.
Later `elif` branches are not evaluated once a keyword has matched. -/
def generate_sql_query (user_request : String) (table_schemas : Snapshot) : String :=
  let lr := pyLower user_request
  if pyContains lr "count" then
    match findTableC lr table_schemas with
    | some t => "SELECT COUNT(*) as total_count FROM " ++ t
    | none => placeholder
  else if pyContains lr "all" || pyContains lr "select" then
    match findTableC lr table_schemas with
    | some t => "SELECT * FROM " ++ t ++ " LIMIT 10"
    | none => placeholder
  else if pyContains lr "average" || pyContains lr "avg" then
    match findAggTable lr numericFrags table_schemas with
    | some (t, c) => "SELECT AVG(" ++ c ++ ") as average_" ++ c ++ " FROM " ++ t
    | none => placeholder
  else if pyContains lr "max" || pyContains lr "maximum" then
    match findAggTable lr numericDateFrags table_schemas with
    | some (t, c) => "SELECT MAX(" ++ c ++ ") as max_" ++ c ++ " FROM " ++ t
    | none => placeholder
  else if pyContains lr "min" || pyContains lr "minimum" then
    match findAggTable lr numericDateFrags table_schemas with
    | some (t, c) => "SELECT MIN(" ++ c ++ ") as min_" ++ c ++ " FROM " ++ t
    | none => placeholder
  else if pyContains lr "group by" || pyContains lr "grouped by" then
    match findAggTable lr textFrags table_schemas with
    | some (t, c) => "SELECT " ++ c ++ ", COUNT(*) as count FROM " ++ t ++ " GROUP BY " ++ c
    | none => placeholder
  else placeholder

/-! ## QueryBuilder (build_advanced_query, sql_tool.py lines 151-196) -/

/-- A WHERE-condition value as it arrives from the parsed JSON:
the source discriminates with `isinstance(value, str)`, treating
every non-string with the f-string `str()` rendering. -/
inductive PyVal where
  | pstr (s : String)
  | pint (n : Int)
deriving DecidableEq

/-- Models Python `str()` on a condition value (the f-string
interpolation `f"... '{condition}'"` of the scalar branch). -/
def pyValStr : PyVal → String
  | .pstr s => s
  | .pint n => toString n

/-- Models the comparison-branch rendering: a string value is wrapped
in single quotes (no escaping), any other value is interpolated
verbatim. -/
def renderVal : PyVal → String
  | .pstr s => "'" ++ s ++ "'"
  | .pint n => toString n

/-- A WHERE condition: the Python value is either a bare scalar or an
operator/value dict (the tagged variant of the spec data model). -/
inductive Cond where
  | scalar (v : PyVal)
  | comparison (op : String) (v : PyVal)
deriving DecidableEq

/-- Models the per-condition rendering in `build_advanced_query`
(lines 169-178): a dict condition renders `column op value` with
strings quoted; a bare scalar renders `column = '<str(value)>'`,
quoting unconditionally. -/
def renderCond (column : String) : Cond → String
  | .comparison op v => column ++ " " ++ op ++ " " ++ renderVal v
  | .scalar v => column ++ " = '" ++ pyValStr v ++ "'"

/-- Models `build_advanced_query` (sql_tool.py lines 151-196).
Optional arguments are `Option`s; Python truthiness makes `some []`,
`some ""` and `some 0` behave like absent arguments, which the
conditionals reproduce.  Clauses are joined by single spaces after
filtering out empty ones, exactly as
`" ".join([part for part in query_parts if part])`. -/
def build_advanced_query (table_name : String) (columns : Option (List String))
    (where_conditions : Option (List (String × Cond))) (order_by : Option String)
    (limit : Option Int) (group_by : Option String) : String :=
  let select_clause :=
    match columns with
    | some cs => if cs.isEmpty then "SELECT *" else "SELECT " ++ String.intercalate ", " cs
    | none => "SELECT *"
  let from_clause := "FROM " ++ table_name
  let where_clause :=
    match where_conditions with
    | some wcs =>
      if wcs.isEmpty then ""
      else "WHERE " ++ String.intercalate " AND " (wcs.map (fun p => renderCond p.1 p.2))
    | none => ""
  let group_clause :=
    match group_by with
    | some g => if g = "" then "" else "GROUP BY " ++ g
    | none => ""
  let order_clause :=
    match order_by with
    | some o => if o = "" then "" else "ORDER BY " ++ o
    | none => ""
  let limit_clause :=
    match limit with
    | some n => if n = 0 then "" else "LIMIT " ++ toString n
    | none => ""
  let query_parts := [select_clause, from_clause, where_clause, group_clause, order_clause, limit_clause]
  String.intercalate " " (query_parts.filter (fun part => part ≠ ""))

/-- Follows the clause-assembly sentences of spec section 4.5: emit the
clauses in the fixed order SELECT, FROM, WHERE, GROUP BY, ORDER BY,
LIMIT, each present clause exactly once, an absent or contentless
clause omitted entirely; present clauses joined by single spaces.
Condition rendering is shared with the source definition, since this
definition exists to compare clause assembly, not quoting. -/
def buildSpec (table_name : String) (columns : Option (List String))
    (where_conditions : Option (List (String × Cond))) (order_by : Option String)
    (limit : Option Int) (group_by : Option String) : String :=
  let clauses : List (Option String) :=
    [ some (match columns with
            | some cs => "SELECT " ++ String.intercalate ", " cs
            | none => "SELECT *"),
      some ("FROM " ++ table_name),
      (match where_conditions with
       | some wcs =>
         if wcs.isEmpty then none
         else some ("WHERE " ++ String.intercalate " AND " (wcs.map (fun p => renderCond p.1 p.2)))
       | none => none),
      (match group_by with
       | some g => some ("GROUP BY " ++ g)
       | none => none),
      (match order_by with
       | some o => some ("ORDER BY " ++ o)
       | none => none),
      (match limit with
       | some n => some ("LIMIT " ++ toString n)
       | none => none) ]
  String.intercalate " " (clauses.filterMap id)

/-! ## QueryLinter (suggest_query_improvements, sql_tool.py lines 400-436) -/

/-- Warning of the `SELECT *` projection check. -/
def warnStar : String :=
  "Consider selecting specific columns instead of SELECT * for better performance"

/-- Warning of the missing-LIMIT check. -/
def warnLimit : String :=
  "Consider adding LIMIT clause to prevent accidentally fetching too many rows"

/-- Warning of the missing-WHERE check. -/
def warnWhere : String :=
  "Consider adding WHERE clause to filter results if needed"

/-- Warning of the missing-ORDER-BY check. -/
def warnOrder : String :=
  "Consider adding ORDER BY clause for consistent result ordering"

/-- Warning of the injection-risk character check. -/
def warnInjection : String :=
  "Be cautious of potential SQL injection - use parameterized queries when possible"

/-- The message returned when no check applies. -/
def looksGoodMsg : String :=
  "Query looks good! No obvious improvements needed."

/-- Models `sql_query.upper().strip()` of the linter. -/
def lintUpper (sql_query : String) : String :=
  String.mk (stripL (sql_query.data.map pyUpperChar))

/-- Check 1: literal `SELECT *` in the upper-cased text. -/
def chkStar (sql_query : String) : Bool :=
  pyContains (lintUpper sql_query) "SELECT *"

/-- Check 2: `LIMIT` absent while `SELECT` present. -/
def chkLimit (sql_query : String) : Bool :=
  !pyContains (lintUpper sql_query) "LIMIT" && pyContains (lintUpper sql_query) "SELECT"

/-- Check 3: `WHERE` absent while `SELECT` present. -/
def chkWhere (sql_query : String) : Bool :=
  !pyContains (lintUpper sql_query) "WHERE" && pyContains (lintUpper sql_query) "SELECT"

/-- Check 4: `ORDER BY` absent while `SELECT` present. -/
def chkOrder (sql_query : String) : Bool :=
  !pyContains (lintUpper sql_query) "ORDER BY" && pyContains (lintUpper sql_query) "SELECT"

/-- Check 5: any of the characters `'`, `"`, `;`, `--` occurs in the
original (un-uppercased) text. -/
def chkInjection (sql_query : String) : Bool :=
  ["'", "\"", ";", "--"].any (fun t => pyContains sql_query t)

/-- Models `suggest_query_improvements` (sql_tool.py lines 400-436):
append the warning of each applicable check in source order; if none
applied, return the single fixed looks-good message. -/
def suggest_query_improvements (sql_query : String) : List String :=
  let suggestions :=
    (if chkStar sql_query then [warnStar] else []) ++
    (if chkLimit sql_query then [warnLimit] else []) ++
    (if chkWhere sql_query then [warnWhere] else []) ++
    (if chkOrder sql_query then [warnOrder] else []) ++
    (if chkInjection sql_query then [warnInjection] else [])
  if suggestions.isEmpty then [looksGoodMsg] else suggestions

/-! ## Sample-data query (get_sample_data, sql_tool.py lines 283-309) -/

/-- Models the query construction in `get_sample_data`:
`limit = min(limit, 100)` followed by
`f"SELECT * FROM {table_name} LIMIT {limit}"`.  No lower bound is
applied, so zero or negative limits are interpolated as-is. -/
def get_sample_data_query (table_name : String) (limit : Int) : String :=
  "SELECT * FROM " ++ table_name ++ " LIMIT " ++ toString (min limit 100)

/-! ## Concrete fixtures used by witnesses and counterexamples -/

/-- A driver that answers every query with zero rows. -/
def dbOkEmpty : Driver := fun _ => .ok []

/-- A driver that fails every query at the connection level. -/
def dbErr : Driver := fun _ => .error "connection lost"

/-- A driver for a table with a single date-typed column. -/
def dbDate : Driver := fun _ => .ok [[("d", Value.vDate 2024 1 15)]]

/-- Column constructor with the non-essential schema fields fixed. -/
def colOf (n t : String) : Col :=
  { name := n, type := t, null := true, key := "", default := none, extra := "" }

/-- Snapshot with one table `orders` whose only column is date-typed:
the average category finds the table but no numeric column, while the
max category's wider type list would accept the date column. -/
def snapC4 : Snapshot := [("orders", [colOf "d" "date"])]

/-- Snapshot with one table `orders` with an int column. -/
def snapOrders : Snapshot := [("orders", [colOf "id" "int"])]

/-! ## Helper lemmas -/

/-- `dropWs` consumes the whole list exactly when it is all whitespace. -/
theorem dropWs_eq_nil_iff (l : List Char) : dropWs l = [] ↔ l.all isWs = true := by
  induction l with
  | nil => simp [dropWs]
  | cons c r ih => cases h : isWs c <;> simp [dropWs, h, ih]

/-- Stripping an all-whitespace character list yields the empty list. -/
theorem stripL_eq_nil_of_all_ws (l : List Char) (h : l.all isWs = true) : stripL l = [] := by
  unfold stripL
  rw [(dropWs_eq_nil_iff l).mpr h]
  rfl

/-- Every character produced by `digitChar` is a decimal digit. -/
theorem digitChar_isDigit (n : Nat) : (digitChar n).isDigit = true := by
  unfold digitChar
  split <;> decide

/-- `str()` of a date has ISO-8601 date syntax. -/
theorem isoDate_iso (y m d : Nat) : isIso8601 (isoDate y m d) = true := by
  simp [isIso8601, isoDate, isoDateL, pad4L, pad2L, isIsoDateChars, digitChar_isDigit]

/-- `str()` of a datetime has ISO-8601 datetime syntax. -/
theorem pyStrDatetime_iso (y m d hh mi ss : Nat) :
    isIso8601 (pyStrDatetime y m d hh mi ss) = true := by
  simp [isIso8601, pyStrDatetime, isoDateL, pad4L, pad2L, isIsoDateChars, digitChar_isDigit]

/-- Serialized values are never native date/datetime objects. -/
theorem serialize_isDateLike_false (v : Value) : isDateLike (serializeValue v) = false := by
  cases v <;> rfl

/-- A string with a nonempty prefix is nonempty. -/
theorem str_append_ne_empty (a b : String) (h : a.data ≠ []) : (a ++ b) ≠ "" := by
  intro hc
  apply h
  have hd : a.data ++ b.data = ([] : List Char) := congrArg String.data hc
  exact (List.append_eq_nil.mp hd).1

/-- The SELECT clause of the builder is never the empty string. -/
theorem select_clause_ne (x : String) : ("SELECT " ++ x) ≠ "" :=
  str_append_ne_empty _ _ (by decide)

/-- The FROM clause of the builder is never the empty string. -/
theorem from_clause_ne (t : String) : ("FROM " ++ t) ≠ "" :=
  str_append_ne_empty _ _ (by decide)

/-- A rendered WHERE clause is never the empty string. -/
theorem where_clause_ne (x : String) : ("WHERE " ++ x) ≠ "" :=
  str_append_ne_empty _ _ (by decide)

/-- A rendered GROUP BY clause is never the empty string. -/
theorem group_clause_ne (g : String) : ("GROUP BY " ++ g) ≠ "" :=
  str_append_ne_empty _ _ (by decide)

/-- A rendered ORDER BY clause is never the empty string. -/
theorem order_clause_ne (o : String) : ("ORDER BY " ++ o) ≠ "" :=
  str_append_ne_empty _ _ (by decide)

/-- A rendered LIMIT clause is never the empty string. -/
theorem limit_clause_ne (n : Int) : ("LIMIT " ++ toString n) ≠ "" :=
  str_append_ne_empty _ _ (by decide)

/-! ## Claim theorems -/

/-- C1: when the first whitespace-delimited token of the query text,
upper-cased, is not in the read-only whitelist, `execute_safe_query`
returns `success = false` with the policy error message, and the result
is independent of the database driver — the connection is never asked
to execute the statement. -/
theorem C1_policy_reject (db db' : Driver) (query qt : String)
    (h1 : classify query = some qt) (h2 : is_read_only qt = false) :
    execute_safe_query db query =
      { success := false, error := some policyMsg, data := [], row_count := 0 } ∧
    execute_safe_query db query = execute_safe_query db' query := by
  unfold execute_safe_query
  rw [h1]
  simp [h2]

/-- C1 witness: `execute_guarded("DROP TABLE t")` is rejected with the
policy message under every driver. -/
theorem C1_policy_reject_witness :
    classify "DROP TABLE t" = some "DROP" ∧ is_read_only "DROP" = false ∧
    (execute_safe_query dbOkEmpty "DROP TABLE t" =
       { success := false, error := some policyMsg, data := [], row_count := 0 } ∧
     execute_safe_query dbOkEmpty "DROP TABLE t" = execute_safe_query dbErr "DROP TABLE t") :=
  ⟨by decide, by decide,
   C1_policy_reject dbOkEmpty dbErr "DROP TABLE t" "DROP" (by decide) (by decide)⟩

/-- C2: `is_read_only` holds exactly on SELECT, SHOW, DESCRIBE and
EXPLAIN; `classify "SELECT * FROM t"` is `SELECT`, `is_read_only
"SELECT"` is true, `is_read_only "DELETE"` is false. -/
theorem C2_read_only_whitelist :
    (∀ k : String, is_read_only k = true ↔
      (k = "SELECT" ∨ k = "SHOW" ∨ k = "DESCRIBE" ∨ k = "EXPLAIN")) ∧
    classify "SELECT * FROM t" = some "SELECT" ∧
    is_read_only "SELECT" = true ∧ is_read_only "DELETE" = false := by
  refine ⟨fun k => ?_, by decide, by decide, by decide⟩
  simp [is_read_only, List.contains, List.elem_iff, List.mem_cons, List.not_mem_nil]

/-- C6 counterexample: on empty (and all-whitespace) input the token
extraction of `classify` yields no token at all — it does not yield an
empty keyword. -/
theorem C6_counterexample :
    classify "" = none ∧ classify "" ≠ some "" ∧ classify "   " ≠ some "" := by
  decide

/-- C6 amended: on input that is empty or all whitespace, `classify`
produces no token (the Python `split()[0]` raises `IndexError`), and
`execute_safe_query` then surfaces the `IndexError` as a
`success = false` error result rather than classifying the query with
an empty keyword. -/
theorem C6_no_token_on_whitespace (db : Driver) (s : String) :
    (s.data.all isWs = true → classify s = none) ∧
    (classify s = none →
      execute_safe_query db s =
        { success := false, error := some "list index out of range", data := [], row_count := 0 }) := by
  constructor
  · intro h
    unfold classify
    rw [stripL_eq_nil_of_all_ws s.data h]
    rfl
  · intro h
    unfold execute_safe_query
    rw [h]

/-- C6 witness: the all-whitespace input `"   "` produces no keyword
and an error result. -/
theorem C6_no_token_on_whitespace_witness :
    ("   ".data.all isWs = true) ∧ classify "   " = none ∧
    execute_safe_query dbOkEmpty "   " =
      { success := false, error := some "list index out of range", data := [], row_count := 0 } :=
  ⟨by decide, (C6_no_token_on_whitespace dbOkEmpty "   ").1 (by decide),
   (C6_no_token_on_whitespace dbOkEmpty "   ").2
     ((C6_no_token_on_whitespace dbOkEmpty "   ").1 (by decide))⟩

/-- C10: `get_sample_data` builds `SELECT * FROM <table> LIMIT
min(n, 100)`: limits above 100 are clamped to 100, while any limit at
most 100 — including zero and negative values — is interpolated into
the SQL text as-is. -/
theorem C10_sample_limit_clamp (table_name : String) (n : Int) :
    (100 < n → get_sample_data_query table_name n = get_sample_data_query table_name 100) ∧
    (n ≤ 100 → get_sample_data_query table_name n =
      "SELECT * FROM " ++ table_name ++ " LIMIT " ++ toString n) := by
  constructor
  · intro h
    simp [get_sample_data_query, min_eq_right h.le]
  · intro h
    simp [get_sample_data_query, min_eq_left h]

/-- C10 witness: 250 is clamped to 100, and -3 is interpolated
as-is. -/
theorem C10_sample_limit_clamp_witness :
    get_sample_data_query "users" 250 = get_sample_data_query "users" 100 ∧
    get_sample_data_query "users" (-3) =
      "SELECT * FROM " ++ "users" ++ " LIMIT " ++ toString (-3 : Int) :=
  ⟨(C10_sample_limit_clamp "users" 250).1 (by decide),
   (C10_sample_limit_clamp "users" (-3)).2 (by decide)⟩

/-- C3 counterexample: a numeric value in the Scalar variant is NOT
rendered unquoted — the scalar branch interpolates `'{condition}'`
and quotes the `str()` of the value unconditionally. -/
theorem C3_counterexample :
    build_advanced_query "orders" none (some [("status", Cond.scalar (PyVal.pint 5))]) none none none
      = "SELECT * FROM orders WHERE status = '5'" ∧
    build_advanced_query "orders" none (some [("status", Cond.scalar (PyVal.pint 5))]) none none none
      ≠ "SELECT * FROM orders WHERE status = 5" := by
  decide

/-- C3 amended: a Scalar condition renders with operator `=` and wraps
`str(value)` in single quotes regardless of the value's type; in the
Comparison variant, string values are wrapped in single quotes with no
escaping of embedded quotes and numeric values render unquoted;
`build("orders", {"status": {"operator": ">", "value": 5}})` is
`SELECT * FROM orders WHERE status > 5`. -/
theorem C3_condition_rendering :
    (∀ column v, renderCond column (Cond.scalar v) = column ++ " = '" ++ pyValStr v ++ "'") ∧
    (∀ column op s, renderCond column (Cond.comparison op (PyVal.pstr s)) =
      column ++ " " ++ op ++ " " ++ ("'" ++ s ++ "'")) ∧
    (∀ column op n, renderCond column (Cond.comparison op (PyVal.pint n)) =
      column ++ " " ++ op ++ " " ++ toString n) ∧
    renderCond "c" (Cond.scalar (PyVal.pstr "a'b")) = "c = 'a'b'" ∧
    build_advanced_query "orders" none (some [("status", Cond.comparison ">" (PyVal.pint 5))]) none none none
      = "SELECT * FROM orders WHERE status > 5" :=
  ⟨fun _ _ => rfl, fun _ _ _ => rfl, fun _ _ _ => rfl, by decide, by decide⟩

/-- C4 counterexample: on request `"average max orders"` over a
snapshot whose only table has a single date column, the average
category matches its keyword but finds no numeric column, and the code
returns the terminal placeholder — although the next category (max)
both matches its keyword and finds a qualifying column, so claimed
fallthrough would have produced a MAX query. -/
theorem C4_counterexample :
    generate_sql_query "average max orders" snapC4 = placeholder ∧
    pyContains (pyLower "average max orders") "max" = true ∧
    findAggTable (pyLower "average max orders") numericDateFrags snapC4 = some ("orders", "d") ∧
    placeholder ≠ "SELECT MAX(" ++ "d" ++ ") as max_" ++ "d" ++ " FROM " ++ "orders" := by
  decide

/-- C4 amended: the categories form an if/elif chain, so once a
category's keyword matches, failure of its table/column lookup returns
the terminal placeholder immediately; later categories are never
evaluated.  Stated for the average category: if neither count nor
all/select keywords match, an average keyword matches, and the numeric
column lookup fails, the result is the placeholder regardless of what
later categories would find. -/
theorem C4_no_fallthrough (user_request : String) (snap : Snapshot)
    (h1 : pyContains (pyLower user_request) "count" = false)
    (h2 : pyContains (pyLower user_request) "all" = false)
    (h3 : pyContains (pyLower user_request) "select" = false)
    (h4 : pyContains (pyLower user_request) "average" = true ∨
          pyContains (pyLower user_request) "avg" = true)
    (h5 : findAggTable (pyLower user_request) numericFrags snap = none) :
    generate_sql_query user_request snap = placeholder := by
  rcases h4 with h4 | h4 <;> simp [generate_sql_query, h1, h2, h3, h4, h5]

/-- C4 witness: the counterexample input, settled through the amended
theorem. -/
theorem C4_no_fallthrough_witness :
    generate_sql_query "average max orders" snapC4 = placeholder :=
  C4_no_fallthrough "average max orders" snapC4 (by decide) (by decide) (by decide)
    (Or.inl (by decide)) (by decide)

/-- C7 counterexample: the spec's example text `"how many rows in
orders"` does not contain the substring `"count"`, so the count
category never fires and the code returns the placeholder, not the
COUNT query. -/
theorem C7_counterexample :
    generate_sql_query "how many rows in orders" snapOrders = placeholder ∧
    pyContains (pyLower "how many rows in orders") "count" = false ∧
    placeholder ≠ "SELECT COUNT(*) as total_count FROM " ++ "orders" := by
  decide

/-- C7 amended: for every request text that contains the substring
`"count"` (case-insensitively) and every snapshot with a first table
whose lowered name occurs in the lowered request, the synthesizer
returns `SELECT COUNT(*) as total_count FROM <t>` for that first
matching table; the trigger is the literal substring `"count"`, which
`"how many rows in orders"` lacks, so the spec's example input yields
the placeholder instead. -/
theorem C7_count_category (user_request : String) (snap : Snapshot) (t : String)
    (h1 : pyContains (pyLower user_request) "count" = true)
    (h2 : findTableC (pyLower user_request) snap = some t) :
    generate_sql_query user_request snap = "SELECT COUNT(*) as total_count FROM " ++ t := by
  simp [generate_sql_query, h1, h2]

/-- C7 witness: `"count rows in orders"` does produce the COUNT
query. -/
theorem C7_count_category_witness :
    generate_sql_query "count rows in orders" snapOrders
      = "SELECT COUNT(*) as total_count FROM " ++ "orders" :=
  C7_count_category "count rows in orders" snapOrders "orders" (by decide) (by decide)

/-- C5: the result serializer of `execute_query` converts every
date-typed value to its ISO-8601 date string and every datetime-typed
value to its ISO-8601 datetime string, passes every other value type
through unchanged, and no native date/datetime object ever appears in
an `execute_query` result; in particular a single date column comes
back as the ISO string `2024-01-15`, never as a date object. -/
theorem C5_date_serialization :
    (∀ y m d, serializeValue (Value.vDate y m d) = Value.vStr (isoDate y m d) ∧
      isIso8601 (isoDate y m d) = true) ∧
    (∀ y m d hh mi ss, serializeValue (Value.vDatetime y m d hh mi ss) =
      Value.vStr (pyStrDatetime y m d hh mi ss) ∧
      isIso8601 (pyStrDatetime y m d hh mi ss) = true) ∧
    (∀ v, isDateLike v = false → serializeValue v = v) ∧
    (∀ (db : Driver) (q : String) (row : List (String × Value)) (kv : String × Value),
      row ∈ (execute_query db q).data → kv ∈ row → isDateLike kv.2 = false) ∧
    execute_query dbDate "SELECT d FROM events" =
      { success := true, error := none, data := [[("d", Value.vStr "2024-01-15")]], row_count := 1 } := by
  refine ⟨fun y m d => ⟨rfl, isoDate_iso y m d⟩,
    fun y m d hh mi ss => ⟨rfl, pyStrDatetime_iso y m d hh mi ss⟩,
    fun v h => ?_, fun db q row kv hrow hkv => ?_, by decide⟩
  · cases v <;> simp_all [isDateLike, serializeValue]
  · simp only [execute_query] at hrow
    rcases List.mem_map.mp hrow with ⟨row0, hr0, hreq⟩
    subst hreq
    rcases List.mem_map.mp hkv with ⟨kv0, hk0, hkeq⟩
    subst hkeq
    exact serialize_isDateLike_false kv0.2

/-- C5 witness: pass-through of an int value and absence of date
objects in a concrete query result with one date column. -/
theorem C5_date_serialization_witness :
    serializeValue (Value.vInt 7) = Value.vInt 7 ∧
    isDateLike (("d", Value.vStr "2024-01-15") : String × Value).2 = false :=
  ⟨C5_date_serialization.2.2.1 (Value.vInt 7) (by decide),
   C5_date_serialization.2.2.2.1 dbDate "SELECT d FROM events"
     [("d", Value.vStr "2024-01-15")] ("d", Value.vStr "2024-01-15") (by decide) (by decide)⟩

/-- C9: the linter never returns an empty sequence; it returns the
single looks-good message exactly when none of the five checks
applies; on `SELECT * FROM t` it returns the four applicable warnings
in the fixed check order, and on a filtered, ordered, limited SELECT
it returns only the looks-good message. -/
theorem C9_linter :
    (∀ sql, suggest_query_improvements sql ≠ []) ∧
    (∀ sql, suggest_query_improvements sql = [looksGoodMsg] ↔
      (chkStar sql = false ∧ chkLimit sql = false ∧ chkWhere sql = false ∧
       chkOrder sql = false ∧ chkInjection sql = false)) ∧
    suggest_query_improvements "SELECT * FROM t" = [warnStar, warnLimit, warnWhere, warnOrder] ∧
    suggest_query_improvements "SELECT id FROM t WHERE id=1 ORDER BY id LIMIT 5"
      = [looksGoodMsg] := by
  refine ⟨fun sql => ?_, fun sql => ?_, by decide, by decide⟩ <;>
    cases hs : chkStar sql <;> cases hl : chkLimit sql <;> cases hw : chkWhere sql <;>
      cases ho : chkOrder sql <;> cases hi : chkInjection sql <;>
        simp [suggest_query_improvements, hs, hl, hw, ho, hi] <;> decide

/-- C8: the builder's output coincides, for every argument
combination (modulo Python's falsy encodings of absent arguments),
with assembling the present clauses in the fixed order SELECT, FROM,
WHERE, GROUP BY, ORDER BY, LIMIT and omitting absent clauses
entirely; `build("orders")` with all optional arguments absent is
exactly `SELECT * FROM orders`. -/
theorem C8_clause_assembly (table_name : String) (columns : Option (List String))
    (where_conditions : Option (List (String × Cond))) (order_by : Option String)
    (limit : Option Int) (group_by : Option String)
    (h1 : columns ≠ some []) (h2 : group_by ≠ some "") (h3 : order_by ≠ some "")
    (h4 : limit ≠ some 0) :
    (build_advanced_query table_name columns where_conditions order_by limit group_by
      = buildSpec table_name columns where_conditions order_by limit group_by) ∧
    build_advanced_query "orders" none none none none none = "SELECT * FROM orders" := by
  refine ⟨?_, by decide⟩
  rcases columns with _ | (_ | ⟨c, cs⟩) <;>
    rcases where_conditions with _ | (_ | ⟨w, ws⟩) <;>
      rcases group_by with _ | g <;>
        rcases order_by with _ | o <;>
          rcases limit with _ | n <;>
            simp_all [build_advanced_query, buildSpec, select_clause_ne, from_clause_ne,
              where_clause_ne, group_clause_ne, order_clause_ne, limit_clause_ne,
              List.filter_cons, List.filter_nil, List.filterMap_cons, List.filterMap_nil]

/-- C8 witness: a fully-populated call agrees with the spec-side
assembly, and the default call is exactly `SELECT * FROM orders`. -/
theorem C8_clause_assembly_witness :
    (build_advanced_query "orders" (some ["a", "b"])
        (some [("x", Cond.scalar (PyVal.pstr "p"))]) (some "a") (some 7) (some "b")
      = buildSpec "orders" (some ["a", "b"])
        (some [("x", Cond.scalar (PyVal.pstr "p"))]) (some "a") (some 7) (some "b")) ∧
    build_advanced_query "orders" none none none none none = "SELECT * FROM orders" :=
  C8_clause_assembly "orders" (some ["a", "b"]) (some [("x", Cond.scalar (PyVal.pstr "p"))])
    (some "a") (some 7) (some "b") (by decide) (by decide) (by decide) (by decide)
